import Mathlib

/-!
Verification of the datajoint tier hierarchy (`user_relations.py`) and the
entity-relationship-diagram component (`erd.py`).

Python strings are modelled as Lean `String` (logically a `List Char` in this
toolchain); Python string primitives (`str.split`, slicing, `str.strip`,
`str.startswith`) are embedded as structurally recursive functions on the
character list so that every definition evaluates by kernel reduction.
Sets of graph nodes (`networkx` node sets, `nodes_to_show`) are modelled as
`Finset String`.  Python exceptions are modelled with `Except` / `Option`.
-/

/-! ## Python string primitives -/

/-- Python `str.split(sep)` for a single-character separator: split the
character list at every occurrence of `c`, keeping empty pieces
(`"`a`".split("`") == ["", "a", ""]`). -/
def split_on_char (c : Char) : List Char → List (List Char)
  | [] => [[]]
  | d :: ds =>
    match split_on_char c ds with
    | [] => [[]]
    | x :: xs => if d = c then [] :: x :: xs else (d :: x) :: xs

/-- Python `s.split(c)` on a `String`. -/
def py_split (s : String) (c : Char) : List String :=
  (split_on_char c s.data).map String.mk

/-- Python `s.strip('`')`: remove every leading and trailing grave accent. -/
def strip_grave (s : String) : String :=
  String.mk (((s.data.dropWhile (fun c => c = '`')).reverse.dropWhile
    (fun c => c = '`')).reverse)

/-- Python slice `s[:n]` (character count; shorter strings are returned whole). -/
def str_take (s : String) (n : Nat) : String :=
  String.mk (s.data.take n)

/-- Python `s.startswith(p)`. -/
def py_startswith (s p : String) : Bool :=
  p.data.isPrefixOf s.data

/-! ## Tier hierarchy (`user_relations.py`) -/

/-- Modelled from the spec: the external name-conversion utility
`from_camel_case` (defined in the repository's `utils` module, which is not
under `src/`): it "turns a capitalized-word identifier into a lowercase,
underscore-delimited identifier", e.g. `MyExperiment ↦ my_experiment`,
`TrialInfo ↦ trial_info`.  Helper: lowercase every later character, putting
an underscore in front of each capitalized word. -/
def from_camel_case_go : List Char → List Char
  | [] => []
  | c :: cs =>
    if c.isUpper then '_' :: c.toLower :: from_camel_case_go cs
    else c :: from_camel_case_go cs

/-- Modelled from the spec: the external `from_camel_case` name-conversion
utility (see `from_camel_case_go`).  The leading character is lowercased
without a separator; each later uppercase character starts a new
underscore-prefixed word. -/
def from_camel_case (s : String) : String :=
  match s.data with
  | [] => ""
  | c :: cs => String.mk (c.toLower :: from_camel_case_go cs)

/-- The four top-level user-relation tiers (`Manual`, `Lookup`, `Imported`,
`Computed`), i.e. the direct subclasses of `UserRelation` that own a
`_prefix`.  `Part` is modelled separately (`PartClass`), as in the source. -/
inductive TopTier where
  | manual
  | lookup
  | imported
  | computed
deriving DecidableEq

/-- The class attribute `_prefix` of each top-level tier
(`Manual._prefix = ''`, `Lookup._prefix = '#'`, `Imported._prefix = '_'`,
`Computed._prefix = '__'`). -/
def tier_pfx : TopTier → String
  | .manual => ""
  | .lookup => "#"
  | .imported => "_"
  | .computed => "__"

/-- The single error type `DataJointError`. -/
structure DataJointError where
  msg : String
deriving DecidableEq

/-- A user-relation class of one of the four top-level tiers: its Python
class name (`cls.__name__`), its tier, and the `database` bound by the schema
decorator (`None` before binding). -/
structure UserRelationClass where
  name : String
  tier : TopTier
  database : Option String
deriving DecidableEq

/-- `UserRelation.table_name`: `cls._prefix + from_camel_case(cls.__name__)`. -/
def UserRelationClass.table_name (c : UserRelationClass) : String :=
  tier_pfx c.tier ++ from_camel_case c.name

/-- `UserRelation.full_table_name`: raises `DataJointError` when `database`
is `None`, otherwise returns ``  `database`.`table_name`  ``. -/
def UserRelationClass.full_table_name (c : UserRelationClass) :
    Except DataJointError String :=
  match c.database with
  | none => .error ⟨"Class " ++ c.name ++
      " is not properly declared (schema decorator not applied?)"⟩
  | some db => .ok ("`" ++ db ++ "`.`" ++ c.table_name ++ "`")

/-- A `Part` class: its Python class name, the bound `database`, and the
bound master class `_master` (`None` until the framework binds it). -/
structure PartClass where
  name : String
  database : Option String
  _master : Option UserRelationClass
deriving DecidableEq

/-- `Part.master`: returns `cls._master`. -/
def PartClass.master (p : PartClass) : Option UserRelationClass := p._master

/-- `Part.table_name`: `None` when the master is unbound, otherwise
`cls.master.table_name + '__' + from_camel_case(cls.__name__)`. -/
def PartClass.table_name (p : PartClass) : Option String :=
  match p.master with
  | none => none
  | some m => some (m.table_name ++ "__" ++ from_camel_case p.name)

/-- `Part.full_table_name`: `None` when `database` or `table_name` is
`None`, otherwise ``  `database`.`table_name`  `` (no exception). -/
def PartClass.full_table_name (p : PartClass) : Option String :=
  match p.database, p.table_name with
  | some db, some t => some ("`" ++ db ++ "`.`" ++ t ++ "`")
  | _, _ => none

/-! ## Tier regular expressions

`_base_regexp = '[a-z]+[a-z0-9]*(_[a-z]+[a-z0-9]*)*'` and the `tier_regexp`
class attributes are embedded as a deterministic matcher on character lists:
a string matches the base pattern iff it is a nonempty sequence of segments
joined by single underscores, each segment starting with a lowercase letter
followed by lowercase letters or digits. -/

/-- Matcher for `_base_regexp`.  The `needStart` flag records whether the
next character must start a new `[a-z]+[a-z0-9]*` segment (start of string,
or right after an underscore). -/
def base_run : List Char → Bool → Bool
  | [], needStart => !needStart
  | c :: cs, needStart =>
    if needStart then c.isLower && base_run cs false
    else if c = '_' then base_run cs true
    else (c.isLower || c.isDigit) && base_run cs false

/-- Full match against `Manual.tier_regexp` (empty prefix + base pattern). -/
def manual_match (cs : List Char) : Bool := base_run cs true

/-- Full match against `Lookup.tier_regexp` (`'#'` + base pattern). -/
def lookup_match : List Char → Bool
  | '#' :: cs => base_run cs true
  | _ => false

/-- Full match against `Imported.tier_regexp` (`'_'` + base pattern). -/
def imported_match : List Char → Bool
  | '_' :: cs => base_run cs true
  | _ => false

/-- Full match against `Computed.tier_regexp` (`'__'` + base pattern). -/
def computed_match : List Char → Bool
  | '_' :: '_' :: cs => base_run cs true
  | _ => false

/-- The alternation `Manual|Lookup|Imported|Computed` used as the `master`
group of `Part.tier_regexp` (in the source's join order). -/
def master_match (cs : List Char) : Bool :=
  manual_match cs || lookup_match cs || imported_match cs || computed_match cs

/-- Full match against `Part.tier_regexp`:
`(master){1,1}` followed by `'__'` followed by `(part: base pattern)` — i.e.
some split of the string into a master-matching prefix, a literal `__`, and a
base-matching remainder. -/
def part_match (cs : List Char) : Bool :=
  (List.range (cs.length + 1)).any fun i =>
    master_match (cs.take i) &&
    (match cs.drop i with
     | '_' :: '_' :: q => base_run q true
     | _ => false)

/-- The five tiers as classified at render time (`erd.py`). -/
inductive Tier where
  | manual
  | lookup
  | computed
  | imported
  | part
deriving DecidableEq

/-- `re.fullmatch(tier.tier_regexp, s)` as a Boolean, for each tier. -/
def tier_regexp_fullmatch (t : Tier) (s : String) : Bool :=
  match t with
  | .manual => manual_match s.data
  | .lookup => lookup_match s.data
  | .imported => imported_match s.data
  | .computed => computed_match s.data
  | .part => part_match s.data

/-- `user_relation_classes = (Manual, Lookup, Computed, Imported, Part)` —
the fixed classification order of `erd._get_tier`. -/
def user_relation_classes : List Tier :=
  [.manual, .lookup, .computed, .imported, .part]

/-- Python `table_name.split('`')[-2]`: the table-name segment of a
fully-qualified identifier.  `none` models the `IndexError` Python raises
when the identifier contains no grave accent (never the case for the
well-formed identifiers the diagram holds). -/
def table_name_segment (s : String) : Option String :=
  let parts := py_split s '`'
  if parts.length < 2 then none else parts.get? (parts.length - 2)

/-- `erd._get_tier`: the first tier in `user_relation_classes` whose
`tier_regexp` fully matches the identifier's table-name segment, else `None`
(`StopIteration` caught). -/
def _get_tier (table_name : String) : Option Tier :=
  match table_name_segment table_name with
  | none => none
  | some seg => user_relation_classes.find? fun t => tier_regexp_fullmatch t seg

/-! ## `OrderedClass` (`user_relations.py`)

`OrderedClass.__prepare__` returns a `collections.OrderedDict`, so the class
namespace records members in declaration order; `__new__` stores
`tuple(namespace)` (the keys, in that order) as `_ordered_class_members`.
The namespace is embedded as an association list built by `OrderedDict`
insertion. -/

/-- One `OrderedDict` insertion: an existing key keeps its position (its
value is updated in place); a new key is appended at the end. -/
def ordered_insert {α : Type} (l : List (String × α)) (k : String) (v : α) :
    List (String × α) :=
  if l.any (fun p => p.1 = k) then
    l.map (fun p => if p.1 = k then (k, v) else p)
  else l ++ [(k, v)]

/-- The class namespace produced by executing the class body: the member
declarations, in source order, inserted one by one into the ordered dict. -/
def class_namespace {α : Type} (decls : List (String × α)) : List (String × α) :=
  decls.foldl (fun ns d => ordered_insert ns d.1 d.2) []

/-- `OrderedClass.__new__`: `result._ordered_class_members = tuple(namespace)`
— the namespace keys, in insertion order. -/
def ordered_class_members {α : Type} (decls : List (String × α)) : List String :=
  (class_namespace decls).map Prod.fst

/-! ## Dependency graph and diagram (`erd.py`) -/

/-- A directed graph over fully-qualified table identifiers (the
`networkx.DiGraph` of `connection.dependencies`). -/
structure DiGraph where
  nodes : Finset String
  edges : Finset (String × String)
deriving DecidableEq

/-- `nx.DiGraph(self).reverse()`: every edge flipped. -/
def DiGraph.reverse (g : DiGraph) : DiGraph :=
  ⟨g.nodes, g.edges.image (fun p => (p.2, p.1))⟩

/-- `nx.algorithms.boundary.node_boundary(G, S)`: the nodes of `G` outside
`S` that receive an edge from some node of `S`. -/
def node_boundary (g : DiGraph) (s : Finset String) : Finset String :=
  g.nodes.filter (fun v => v ∉ s ∧ ∃ u ∈ s, (u, v) ∈ g.edges)

/-- An `ERD` value: the owned dependency-graph snapshot plus the
`nodes_to_show` subset. -/
structure ERD where
  graph : DiGraph
  nodes_to_show : Finset String
deriving DecidableEq

/-- The loop body of `__add__`/`__sub__` with an integer argument:
`for i in range(n): new = node_boundary(...); if not new: break; update(new)`.
Structural recursion over the remaining hop count. -/
def expand (g : DiGraph) : Nat → Finset String → Finset String
  | 0, s => s
  | n + 1, s =>
    let new := node_boundary g s
    if new = ∅ then s else expand g n (s ∪ new)

/-- `erd + n` for an integer `n` (the final branch of `ERD.__add__`):
`range(n)` is empty for `n ≤ 0`, so `Int.toNat` models the hop count. -/
def ERD.addInt (e : ERD) (n : Int) : ERD :=
  ⟨e.graph, expand e.graph n.toNat e.nodes_to_show⟩

/-- `erd - n` for an integer `n` (the final branch of `ERD.__sub__`): the
same loop with the boundary taken in `nx.DiGraph(self).reverse()`. -/
def ERD.subInt (e : ERD) (n : Int) : ERD :=
  ⟨e.graph, expand e.graph.reverse n.toNat e.nodes_to_show⟩

/-- `erd1 + erd2` (the first branch of `ERD.__add__`):
`nodes_to_show.update(arg.nodes_to_show)` on a copy. -/
def ERD.addERD (e other : ERD) : ERD :=
  ⟨e.graph, e.nodes_to_show ∪ other.nodes_to_show⟩

/-- One application of `S ∪ node_boundary(g, S)` — the specification-side
single expansion step (no early stopping). -/
def growStep (g : DiGraph) (s : Finset String) : Finset String :=
  s ∪ node_boundary g s

/-- `is_part(part, master)` from `ERD.add_parts`: split both identifiers on
`'.'`, strip grave accents from each piece, and require equal database
segments (`master[0] == part[0]`) and
`master[1] + '__' == part[1][:len(master[1]) + 2]`.
Python indexes pieces `[0]` and `[1]`; `getD ""` stands in for the
`IndexError` on identifiers without a `'.'` (never well-formed nodes). -/
def is_part (part master : String) : Bool :=
  let p := (py_split part '.').map strip_grave
  let m := (py_split master '.').map strip_grave
  decide ((m.getD 0 "") = (p.getD 0 "") ∧
    (m.getD 1 "") ++ "__" = str_take (p.getD 1 "") ((m.getD 1 "").length + 2))

/-- `ERD.add_parts`: add every graph node that `is_part` of some node
already shown. -/
def ERD.add_parts (e : ERD) : ERD :=
  ⟨e.graph,
    e.nodes_to_show ∪
      e.graph.nodes.filter (fun n => ∃ m ∈ e.nodes_to_show, is_part n m = true)⟩

/-! ## Diagram construction (`ERD.__init__`, `ERD.from_sequence`) -/

/-- The Python errors that diagram construction can surface.
`typeErr` models a `TypeError` (e.g. subscripting a non-subscriptable
object, or `functools.reduce` over an empty iterable). -/
inductive PyError where
  | datajoint (msg : String)
  | typeErr (msg : String)
deriving DecidableEq

/-- A database connection: `connection.dependencies` after `.load()`. -/
structure Connection where
  dependencies : DiGraph
deriving DecidableEq

/-- A `schema` attribute nested in a diagram source: it may expose a
`connection` and a `database` (a missing attribute is `none`, standing for
the `AttributeError` the source code catches). -/
structure SchemaAttr where
  connection : Option Connection
  database : Option String
deriving DecidableEq

/-- A diagram source object, modelled by which attributes it exposes:
`connection`, a nested `schema`, `full_table_name`, `database`; `item0` is
`repr(source[0])` when the object supports subscripting (else `none`, i.e.
`source[0]` raises); `repr_str` is `repr(source)`. -/
structure DiagramSource where
  connection : Option Connection
  schema : Option SchemaAttr
  full_table_name : Option String
  database : Option String
  item0 : Option String
  repr_str : String

/-- The connection-resolution prelude of `ERD.__init__`: try
`source.connection`, then `source.schema.connection`; on double failure the
code raises `DataJointError('Could not find database connection in %s' %
repr(source[0]))` — but evaluating `source[0]` in that message itself raises
(e.g. `TypeError`) when the source is not subscriptable, and that error
propagates instead of the `DataJointError`. -/
def find_connection (src : DiagramSource) : Except PyError Connection :=
  match src.connection with
  | some c => .ok c
  | none =>
    match src.schema.bind (fun sc => sc.connection) with
    | some c => .ok c
    | none =>
      match src.item0 with
      | some r => .error (.datajoint ("Could not find database connection in " ++ r))
      | none => .error (.typeErr "object is not subscriptable")

/-- `ERD.__init__` from a (non-`ERD`) source: resolve the connection, take
its dependency graph, then determine `nodes_to_show`: the source's
`full_table_name` if it has one; else every graph node whose identifier
starts with the backtick-quoted `database` of the source (or of its nested
`schema`); else `DataJointError('Cannot plot ERD for %s' % repr(source))`. -/
def ERD_init (src : DiagramSource) : Except PyError ERD :=
  match find_connection src with
  | .error e => .error e
  | .ok conn =>
    let g := conn.dependencies
    match src.full_table_name with
    | some ftn => .ok ⟨g, {ftn}⟩
    | none =>
      match src.database.orElse (fun _ => src.schema.bind (fun sc => sc.database)) with
      | some db =>
          .ok ⟨g, g.nodes.filter (fun n => py_startswith n ("`" ++ db ++ "`") = true)⟩
      | none => .error (.datajoint ("Cannot plot ERD for " ++ src.repr_str))

/-- `functools.reduce(f, l)` with no initial value: `TypeError` on an empty
iterable, else the left fold of `f` over the tail starting from the head. -/
def functools_reduce {α : Type} (f : α → α → α) (l : List α) : Except PyError α :=
  match l with
  | [] => .error (.typeErr "reduce() of empty iterable with no initial value")
  | x :: xs => .ok (xs.foldl f x)

/-- `ERD.from_sequence(sequence)`:
`functools.reduce(lambda x, y: x + y, map(ERD, sequence))`.  (The `map` is
embedded eagerly via `mapM`; for the empty sequence both raise the `reduce`
`TypeError` without constructing any diagram.) -/
def from_sequence (seq : List DiagramSource) : Except PyError ERD :=
  match seq.mapM ERD_init with
  | .error e => .error e
  | .ok erds => functools_reduce ERD.addERD erds

/-! ## Render-graph preparation (`ERD._make_graph`) and layout -/

/-- The nodes of the render graph:
`nx.DiGraph(self).subgraph(self.nodes_to_show)`, listed in sorted order for
iteration. -/
def render_nodes (e : ERD) : List String :=
  (e.graph.nodes ∩ e.nodes_to_show).sort (· ≤ ·)

/-- The display names of the render nodes:
`lookup_class_name(node, context) or node`, with the caller-supplied
name-resolution context abstracted as `resolve` (modelled from the spec:
`lookup_class_name` lives outside `src/`; it yields the display name for an
identifier, or `None`, in which case the raw identifier is kept). -/
def render_display_names (e : ERD) (resolve : String → Option String) :
    List String :=
  (render_nodes e).map (fun n => (resolve n).getD n)

/-- The duplicate-display-name check of `_make_graph`, exactly as written:
`new_names = [mapping.values()]` (a one-element list holding the values
view), raising iff `len(new_names) > len(set(new_names))`. -/
def duplicate_name_check (names : List String) : Bool :=
  let new_names : List (List String) := [names]
  decide (new_names.length > new_names.dedup.length)

/-- `ERD._make_graph`: build the relabelled, tier-annotated render graph,
raising `DataJointError` when `duplicate_name_check` fires. -/
def _make_graph (e : ERD) (resolve : String → Option String) :
    Except DataJointError (List (String × Option Tier)) :=
  if duplicate_name_check (render_display_names e resolve) then
    .error ⟨"Some classes have identical names. The ERD cannot be plotted."⟩
  else
    .ok ((render_nodes e).map (fun n => ((resolve n).getD n, _get_tier n)))

/-- Python `min` over a list of numbers (raises on an empty sequence; the
`[]` case is never exercised — `_layout` runs on a non-empty graph). -/
def qmin : List ℚ → ℚ
  | [] => 0
  | x :: xs => xs.foldl min x

/-- Python `max` over a list of numbers (same remark as `qmin`). -/
def qmax : List ℚ → ℚ
  | [] => 0
  | x :: xs => xs.foldl max x

/-- `ERD._layout` normalization, exactly as written in the source: with
`m = dict(x=(xmin, xmax), y=(ymin, ymax))`, every position `(vx, vy)` maps to
`((vx - m['x'][0]) / (m['x'][1] - m['x'][0]),
  (vy - m['x'][1]) / (m['y'][1] - m['y'][0]))` —
note the second coordinate subtracts `m['x'][1]` (the x-axis maximum).
Positions are embedded as rationals. -/
def _layout (pos : List (String × ℚ × ℚ)) : List (String × ℚ × ℚ) :=
  let xs := pos.map (fun p => p.2.1)
  let ys := pos.map (fun p => p.2.2)
  let xmin := qmin xs
  let xmax := qmax xs
  let ymin := qmin ys
  let ymax := qmax ys
  pos.map (fun p =>
    (p.1, ((p.2.1 - xmin) / (xmax - xmin), (p.2.2 - xmax) / (ymax - ymin))))

/-! ## Concrete instances used by witnesses and counterexamples -/

/-- A three-node chain `a → b → c`, showing `{a}`. -/
def erdC4 : ERD := ⟨⟨{"a", "b", "c"}, {("a", "b"), ("b", "c")}⟩, {"a"}⟩

/-- A master `` `d`.`m` `` with its part `` `d`.`m__p` `` and an unrelated
node `` `e`.`m__q` `` in another database, showing only the master. -/
def erdC5 : ERD :=
  ⟨⟨{"`d`.`m`", "`d`.`m__p`", "`e`.`m__q`"}, ∅⟩, {"`d`.`m`"}⟩

/-- Two shown nodes in the same database, used for the duplicate-name
check. -/
def erdC6 : ERD :=
  ⟨⟨{"`d`.`a`", "`d`.`b`"}, ∅⟩, {"`d`.`a`", "`d`.`b`"}⟩

/-- A name-resolution context sending every identifier to the same display
name `X`. -/
def resolveC6 : String → Option String := fun _ => some "X"

/-- Two layout positions spanning the unit square diagonal. -/
def posC8 : List (String × ℚ × ℚ) := [("a", (0, 0)), ("b", (1, 1))]

/-- A diagram source exposing none of `connection`, `schema`, or
subscripting. -/
def srcC9 : DiagramSource :=
  { connection := none, schema := none, full_table_name := none,
    database := none, item0 := none, repr_str := "obj" }

/-- A subscriptable diagram source (e.g. a list) exposing neither a
connection nor a schema. -/
def srcC9b : DiagramSource :=
  { connection := none, schema := none, full_table_name := none,
    database := none, item0 := some "[rel]", repr_str := "[rel]" }

/-- Discriminator: is this result a raised `DataJointError`? -/
def is_datajoint_error {α : Type} : Except PyError α → Bool
  | .error (.datajoint _) => true
  | _ => false

/-- A one-node dependency graph. -/
def gC10 : DiGraph := ⟨{"`d`.`a`"}, ∅⟩

/-- A well-formed diagram source: a bound relation exposing a connection
and a `full_table_name`. -/
def srcC10 : DiagramSource :=
  { connection := some ⟨gC10⟩, schema := none, full_table_name := some "`d`.`a`",
    database := none, item0 := none, repr_str := "rel" }

/-! ## Theorems -/

/-- Helper: the `"__"` literal as characters. -/
theorem data_uu : ("__" : String).data = ['_', '_'] := rfl

/-- Helper for C5: the Python comparison
`master_name + '__' == part_name[:len(master_name) + 2]` holds iff
`master_name + '__'` is a prefix of `part_name`. -/
theorem take_two_underscore_iff (t s : String) :
    (t ++ "__" = str_take s (t.length + 2)) ↔ (t.data ++ ['_', '_']) <+: s.data := by
  rw [String.ext_iff, List.prefix_iff_eq_take]
  have h1 : (t ++ "__").data = t.data ++ ['_', '_'] := by
    simp [String.data_append, data_uu]
  have h2 : (str_take s (t.length + 2)).data = s.data.take (t.data.length + 2) := rfl
  have h3 : (t.data ++ ['_', '_']).length = t.data.length + 2 := by simp
  rw [h1, h2, h3]

/-- Helper for C5: `is_part` unfolded to a database-segment equality plus a
prefix condition on the table-name segments. -/
theorem is_part_iff (part master : String) :
    is_part part master = true ↔
      ((py_split master '.').map strip_grave).getD 0 "" =
          ((py_split part '.').map strip_grave).getD 0 "" ∧
        ((((py_split master '.').map strip_grave).getD 1 "").data ++ ['_', '_']) <+:
          (((py_split part '.').map strip_grave).getD 1 "").data := by
  simp only [is_part, decide_eq_true_eq]
  exact and_congr Iff.rfl (take_two_underscore_iff _ _)

/-- Helper for C5: the part-of relation composes — a part of a part of a
master is itself a part of that master. -/
theorem is_part_trans {a b c : String}
    (h1 : is_part a b = true) (h2 : is_part b c = true) : is_part a c = true := by
  rw [is_part_iff] at h1 h2 ⊢
  obtain ⟨hdb1, hp1⟩ := h1
  obtain ⟨hdb2, hp2⟩ := h2
  exact ⟨hdb2.trans hdb1, hp2.trans ((List.prefix_append _ _).trans hp1)⟩

/-- Helper for C4: the integer-expansion loop with early stopping computes
exactly the `n`-fold iterate of the single expansion step. -/
theorem expand_eq_iterate (g : DiGraph) :
    ∀ (n : Nat) (s : Finset String), expand g n s = (growStep g)^[n] s := by
  intro n
  induction n with
  | zero => intro s; rfl
  | succ n ih =>
    intro s
    rw [Function.iterate_succ_apply]
    show (if node_boundary g s = ∅ then s
          else expand g n (s ∪ node_boundary g s)) = (growStep g)^[n] (growStep g s)
    by_cases h : node_boundary g s = ∅
    · have hfix : growStep g s = s := by simp [growStep, h]
      rw [if_pos h, hfix]
      exact (Function.iterate_fixed hfix n).symm
    · rw [if_neg h, ih]
      rfl

/-- C4: one boundary step adds exactly the graph nodes reachable by one
outgoing edge from the shown set and not already shown; `e + n` performs the
step `n.toNat` times (zero or negative `n` is a no-op, not an error) and its
early stopping is sound — the result is the plain `n`-fold iterate; `e - n`
does the same with the boundary taken in the reversed graph (i.e. expanding
via predecessors). -/
theorem erd_int_expansion_spec :
    (∀ (g : DiGraph) (s : Finset String) (v : String),
        v ∈ node_boundary g s ↔
          v ∈ g.nodes ∧ v ∉ s ∧ ∃ u ∈ s, (u, v) ∈ g.edges)
    ∧ (∀ (g : DiGraph) (u v : String),
        (u, v) ∈ g.reverse.edges ↔ (v, u) ∈ g.edges)
    ∧ (∀ (e : ERD) (n : Int), n ≤ 0 →
        (e.addInt n).nodes_to_show = e.nodes_to_show)
    ∧ (∀ (e : ERD) (n : Int), n ≤ 0 →
        (e.subInt n).nodes_to_show = e.nodes_to_show)
    ∧ (∀ (e : ERD) (n : Int),
        (e.addInt n).nodes_to_show = (growStep e.graph)^[n.toNat] e.nodes_to_show)
    ∧ (∀ (e : ERD) (n : Int),
        (e.subInt n).nodes_to_show =
          (growStep e.graph.reverse)^[n.toNat] e.nodes_to_show) := by
  refine ⟨?_, ?_, ?_, ?_, ?_, ?_⟩
  · intro g s v
    simp [node_boundary]
  · intro g u v
    simp only [DiGraph.reverse, Finset.mem_image]
    constructor
    · rintro ⟨⟨a, b⟩, hm, heq⟩
      injection heq with h1 h2
      subst h1
      subst h2
      exact hm
    · intro h
      exact ⟨(v, u), h, rfl⟩
  · intro e n h
    simp [ERD.addInt, Int.toNat_of_nonpos h, expand]
  · intro e n h
    simp [ERD.subInt, Int.toNat_of_nonpos h, expand]
  · intro e n
    exact expand_eq_iterate e.graph n.toNat e.nodes_to_show
  · intro e n
    exact expand_eq_iterate e.graph.reverse n.toNat e.nodes_to_show

/-- Witness for C4: zero/negative hop counts leave the concrete chain
diagram unchanged. -/
theorem erd_int_expansion_spec_witness :
    (erdC4.addInt (-1)).nodes_to_show = erdC4.nodes_to_show ∧
    (erdC4.subInt 0).nodes_to_show = erdC4.nodes_to_show :=
  ⟨erd_int_expansion_spec.2.2.1 erdC4 (-1) (by decide),
   erd_int_expansion_spec.2.2.2.1 erdC4 0 (by decide)⟩

/-- C5: `add_parts` adds exactly the graph nodes that are part-of some shown
node (same database segment; table-name segment extends the master's by a
literal `__`), and it is idempotent: a second application adds nothing. -/
theorem add_parts_spec :
    ∀ e : ERD,
      (∀ v : String,
        v ∈ e.add_parts.nodes_to_show ↔
          v ∈ e.nodes_to_show ∨
            (v ∈ e.graph.nodes ∧ ∃ m ∈ e.nodes_to_show, is_part v m = true))
      ∧ e.add_parts.add_parts.nodes_to_show = e.add_parts.nodes_to_show := by
  intro e
  constructor
  · intro v
    simp [ERD.add_parts, Finset.mem_union, Finset.mem_filter]
  · ext v
    simp only [ERD.add_parts, Finset.mem_union, Finset.mem_filter]
    constructor
    · rintro (h | ⟨hvnode, m, hm, hpm⟩)
      · exact h
      · rcases hm with hm | ⟨hmnode, m', hm', hpm'⟩
        · exact Or.inr ⟨hvnode, m, hm, hpm⟩
        · exact Or.inr ⟨hvnode, m', hm', is_part_trans hpm hpm'⟩
    · intro h
      exact Or.inl h

/-- Witness for C5: on the concrete master/part diagram the part in the same
database is added, and a second `add_parts` is a no-op. -/
theorem add_parts_spec_witness :
    "`d`.`m__p`" ∈ erdC5.add_parts.nodes_to_show ∧
    erdC5.add_parts.add_parts.nodes_to_show = erdC5.add_parts.nodes_to_show := by
  have h := add_parts_spec erdC5
  exact ⟨(h.1 "`d`.`m__p`").mpr (Or.inr (by decide)), h.2⟩

/-- C1: for Manual, Lookup, Imported and Computed classes, `table_name` is
the tier's literal prefix (`""`, `"#"`, `"_"`, `"__"` respectively)
prepended to the snake_case conversion of the class name; for a Part class,
`table_name` is absent when no master is bound and otherwise the bound
master's `table_name` followed by `"__"` and the snake_case class name.
The spec's concrete naming examples are included. -/
theorem table_name_spec :
    (∀ c : UserRelationClass,
        c.table_name = tier_pfx c.tier ++ from_camel_case c.name)
    ∧ tier_pfx .manual = "" ∧ tier_pfx .lookup = "#"
    ∧ tier_pfx .imported = "_" ∧ tier_pfx .computed = "__"
    ∧ (∀ p : PartClass, p.master = none → p.table_name = none)
    ∧ (∀ (p : PartClass) (m : UserRelationClass), p.master = some m →
        p.table_name = some (m.table_name ++ "__" ++ from_camel_case p.name))
    ∧ UserRelationClass.table_name ⟨"MyExperiment", .manual, none⟩ = "my_experiment"
    ∧ UserRelationClass.table_name ⟨"MyExperiment", .lookup, none⟩ = "#my_experiment"
    ∧ UserRelationClass.table_name ⟨"MyExperiment", .imported, none⟩ = "_my_experiment"
    ∧ UserRelationClass.table_name ⟨"MyExperiment", .computed, none⟩ = "__my_experiment"
    ∧ PartClass.table_name ⟨"TrialInfo", none, some ⟨"MyExperiment", .manual, none⟩⟩ =
        some "my_experiment__trial_info" := by
  refine ⟨fun c => rfl, rfl, rfl, rfl, rfl, ?_, ?_, ?_, ?_, ?_, ?_, ?_⟩
  · intro p h
    simp [PartClass.table_name, h]
  · intro p m h
    simp [PartClass.table_name, h]
  all_goals decide

/-- Witness for C1 at a concrete unbound Part class. -/
theorem table_name_spec_witness :
    PartClass.table_name ⟨"TrialInfo", none, none⟩ = none :=
  table_name_spec.2.2.2.2.2.1 ⟨"TrialInfo", none, none⟩ rfl

/-- C2: `full_table_name` on a top-level-tier class with no bound database
fails with the declaration `DataJointError`; on a Part class whose database
or `table_name` is unset it returns absent instead; when fully bound it
returns the identifier with both segments individually backtick-quoted. -/
theorem full_table_name_spec :
    (∀ c : UserRelationClass, c.database = none →
        c.full_table_name = .error ⟨"Class " ++ c.name ++
          " is not properly declared (schema decorator not applied?)"⟩)
    ∧ (∀ (c : UserRelationClass) (db : String), c.database = some db →
        c.full_table_name = .ok ("`" ++ db ++ "`.`" ++ c.table_name ++ "`"))
    ∧ (∀ p : PartClass, p.database = none → p.full_table_name = none)
    ∧ (∀ p : PartClass, p.table_name = none → p.full_table_name = none)
    ∧ (∀ (p : PartClass) (db t : String),
        p.database = some db → p.table_name = some t →
        p.full_table_name = some ("`" ++ db ++ "`.`" ++ t ++ "`")) := by
  refine ⟨?_, ?_, ?_, ?_, ?_⟩
  · intro c h
    simp [UserRelationClass.full_table_name, h]
  · intro c db h
    simp [UserRelationClass.full_table_name, h]
  · intro p h
    simp [PartClass.full_table_name, h]
  · intro p h
    cases hdb : p.database <;> simp [PartClass.full_table_name, h, hdb]
  · intro p db t hdb ht
    simp [PartClass.full_table_name, hdb, ht]

/-- Witness for C2: a concrete undeclared Manual class errors, a concrete
Part class with a database but no master yields absent. -/
theorem full_table_name_spec_witness :
    UserRelationClass.full_table_name ⟨"Foo", .manual, none⟩ =
      .error ⟨"Class Foo is not properly declared (schema decorator not applied?)"⟩
    ∧ PartClass.full_table_name ⟨"TrialInfo", some "db", none⟩ = none :=
  ⟨full_table_name_spec.1 ⟨"Foo", .manual, none⟩ rfl,
   full_table_name_spec.2.2.2.1 ⟨"TrialInfo", some "db", none⟩ rfl⟩

/-- C3: `_get_tier` extracts the table-name segment of a fully-qualified
identifier and returns the first tier — in the fixed order Manual, Lookup,
Computed, Imported, Part — whose `tier_regexp` fully matches it, or none
("untiered") when no tier matches; the spec's concrete classifications
hold. -/
theorem get_tier_spec :
    (∀ s seg : String, table_name_segment s = some seg →
        _get_tier s =
          user_relation_classes.find? (fun t => tier_regexp_fullmatch t seg))
    ∧ (∀ seg : String,
        user_relation_classes.find? (fun t => tier_regexp_fullmatch t seg) =
          (if tier_regexp_fullmatch .manual seg then some .manual
           else if tier_regexp_fullmatch .lookup seg then some .lookup
           else if tier_regexp_fullmatch .computed seg then some .computed
           else if tier_regexp_fullmatch .imported seg then some .imported
           else if tier_regexp_fullmatch .part seg then some .part
           else none))
    ∧ _get_tier "`db`.`mytable`" = some .manual
    ∧ _get_tier "`db`.`#mytable`" = some .lookup
    ∧ _get_tier "`db`.`_mytable`" = some .imported
    ∧ _get_tier "`db`.`__mytable`" = some .computed
    ∧ _get_tier "`db`.`mytable__part`" = some .part
    ∧ _get_tier "`db`.`CapitalName`" = none
    ∧ _get_tier "`db`.`1table`" = none := by
  refine ⟨?_, ?_, ?_, ?_, ?_, ?_, ?_, ?_, ?_⟩
  · intro s seg h
    simp [_get_tier, h]
  · intro seg
    cases hm : tier_regexp_fullmatch Tier.manual seg <;>
    cases hl : tier_regexp_fullmatch Tier.lookup seg <;>
    cases hc : tier_regexp_fullmatch Tier.computed seg <;>
    cases hi : tier_regexp_fullmatch Tier.imported seg <;>
    cases hp : tier_regexp_fullmatch Tier.part seg <;>
    simp [user_relation_classes, List.find?, hm, hl, hc, hi, hp]
  all_goals decide

/-- Witness for C3 at a concrete identifier. -/
theorem get_tier_spec_witness :
    _get_tier "`db`.`mytable__part`" =
      user_relation_classes.find?
        (fun t => tier_regexp_fullmatch t "mytable__part") :=
  get_tier_spec.1 "`db`.`mytable__part`" "mytable__part" (by decide)

/-- Helper for C7: inserting a fresh key into an ordered dict appends it. -/
theorem ordered_insert_fresh {α : Type} (ns : List (String × α)) (d : String × α)
    (hd : d.1 ∉ ns.map Prod.fst) :
    ordered_insert ns d.1 d.2 = ns ++ [d] := by
  have hno : ¬ ∃ p ∈ ns, p.1 = d.1 := by
    rintro ⟨p, hp, he⟩
    exact hd (List.mem_map.mpr ⟨p, hp, he⟩)
  simp [ordered_insert, List.any_eq_true, hno]

/-- Helper for C7: folding ordered-dict insertions of pairwise-fresh keys
over an accumulator appends the declarations in order. -/
theorem foldl_ordered_insert {α : Type} :
    ∀ (decls ns : List (String × α)),
      (ns.map Prod.fst ++ decls.map Prod.fst).Nodup →
      decls.foldl (fun acc d => ordered_insert acc d.1 d.2) ns = ns ++ decls := by
  intro decls
  induction decls with
  | nil => intro ns _; simp
  | cons d ds ih =>
    intro ns h
    have hd1 : d.1 ∉ ns.map Prod.fst := by
      intro hmem
      exact (List.nodup_append.mp h).2.2 hmem (by simp)
    rw [List.foldl_cons, ordered_insert_fresh ns d hd1, ih (ns ++ [d]) (by simpa using h)]
    simp

/-- C7: for a class built through `OrderedClass` whose members are declared
with pairwise-distinct names, `_ordered_class_members` is exactly the
directly declared member names in source order; in particular declaring
`[x, y, z]` captures `["x", "y", "z"]`. -/
theorem ordered_class_members_spec :
    (∀ (α : Type) (decls : List (String × α)), (decls.map Prod.fst).Nodup →
        ordered_class_members decls = decls.map Prod.fst)
    ∧ ordered_class_members [("x", 1), ("y", 2), ("z", 3)] = ["x", "y", "z"] := by
  constructor
  · intro α decls h
    unfold ordered_class_members class_namespace
    rw [foldl_ordered_insert decls [] (by simpa using h)]
    simp
  · decide

/-- Witness for C7 at the concrete three-member declaration list. -/
theorem ordered_class_members_spec_witness :
    ordered_class_members [("a", (0 : Nat)), ("b", 1), ("c", 2)] = ["a", "b", "c"] :=
  ordered_class_members_spec.1 Nat [("a", 0), ("b", 1), ("c", 2)] (by decide)

/-- C6 (code bug): the duplicate-display-name guard in `_make_graph` wraps
the values view in a one-element list (`new_names = [mapping.values()]`), so
`len(new_names) > len(set(new_names))` compares `1 > 1` and can never fire;
on a diagram whose two shown nodes both resolve to the display name `X`,
relabeling completes with duplicate names instead of raising the
diagram-ambiguity `DataJointError`. -/
theorem make_graph_duplicate_names_bug :
    (∀ names : List String, duplicate_name_check names = false)
    ∧ render_display_names erdC6 resolveC6 = ["X", "X"]
    ∧ ¬ (render_display_names erdC6 resolveC6).Nodup
    ∧ (∃ out, _make_graph erdC6 resolveC6 = .ok out) := by
  have hchk : ∀ names : List String, duplicate_name_check names = false := by
    intro names
    simp [duplicate_name_check]
  have hinter : erdC6.graph.nodes ∩ erdC6.nodes_to_show =
      {"`d`.`a`", "`d`.`b`"} := by decide
  have hlen : (render_nodes erdC6).length = 2 := by
    unfold render_nodes
    rw [hinter, Finset.length_sort]
    decide
  have hmap : render_display_names erdC6 resolveC6 =
      (render_nodes erdC6).map (fun _ => "X") := rfl
  have h2 : ∀ l : List String, l.length = 2 → l.map (fun _ => "X") = ["X", "X"] := by
    intro l hl
    rcases l with _ | ⟨a, _ | ⟨b, _ | ⟨c, t⟩⟩⟩ <;> simp_all
  have hXX : render_display_names erdC6 resolveC6 = ["X", "X"] :=
    hmap.trans (h2 _ hlen)
  refine ⟨hchk, hXX, ?_, ?_⟩
  · rw [hXX]
    decide
  · refine ⟨(render_nodes erdC6).map (fun n => ((resolveC6 n).getD n, _get_tier n)), ?_⟩
    simp [_make_graph, hchk]

/-- Helper for C8: a left fold by `min` is bounded by its initial value. -/
theorem foldl_min_le_init : ∀ (l : List ℚ) (a : ℚ), l.foldl min a ≤ a := by
  intro l
  induction l with
  | nil => intro a; exact le_refl a
  | cons x t ih => intro a; exact le_trans (ih (min a x)) (min_le_left a x)

/-- Helper for C8: a left fold by `min` is bounded by every list element. -/
theorem foldl_min_le_mem : ∀ (l : List ℚ) (a x : ℚ), x ∈ l → l.foldl min a ≤ x := by
  intro l
  induction l with
  | nil =>
    intro a x hx
    simp at hx
  | cons y t ih =>
    intro a x hx
    rcases List.mem_cons.mp hx with rfl | hx
    · exact le_trans (foldl_min_le_init t (min a x)) (min_le_right a x)
    · exact ih (min a y) x hx

/-- Helper for C8: a left fold by `max` dominates its initial value. -/
theorem le_foldl_max_init : ∀ (l : List ℚ) (a : ℚ), a ≤ l.foldl max a := by
  intro l
  induction l with
  | nil => intro a; exact le_refl a
  | cons x t ih => intro a; exact le_trans (le_max_left a x) (ih (max a x))

/-- Helper for C8: a left fold by `max` dominates every list element. -/
theorem le_foldl_max_mem : ∀ (l : List ℚ) (a x : ℚ), x ∈ l → x ≤ l.foldl max a := by
  intro l
  induction l with
  | nil =>
    intro a x hx
    simp at hx
  | cons y t ih =>
    intro a x hx
    rcases List.mem_cons.mp hx with rfl | hx
    · exact le_trans (le_max_right a x) (le_foldl_max_init t (max a x))
    · exact ih (max a y) x hx

/-- Helper for C8: `qmin` bounds every member from below. -/
theorem qmin_le_of_mem {l : List ℚ} {x : ℚ} (h : x ∈ l) : qmin l ≤ x := by
  rcases l with _ | ⟨y, t⟩
  · simp at h
  · rcases List.mem_cons.mp h with rfl | hx
    · exact foldl_min_le_init t x
    · exact foldl_min_le_mem t y x hx

/-- Helper for C8: `qmax` bounds every member from above. -/
theorem le_qmax_of_mem {l : List ℚ} {x : ℚ} (h : x ∈ l) : x ≤ qmax l := by
  rcases l with _ | ⟨y, t⟩
  · simp at h
  · rcases List.mem_cons.mp h with rfl | hx
    · exact le_foldl_max_init t x
    · exact le_foldl_max_mem t y x hx

/-- C8 counterexample: on the concrete positions `a ↦ (0,0)`, `b ↦ (1,1)`
the code maps `a` to normalized position `(0, -1)` — the y-coordinate falls
outside `[0, 1]` and differs from the claimed `(y - ymin)/(ymax - ymin) = 0`,
because the source subtracts the x-axis maximum in the y-numerator. -/
theorem layout_counterexample :
    _layout posC8 = [("a", (0, -1)), ("b", (1, 0))]
    ∧ ¬ (0 ≤ (-1 : ℚ))
    ∧ ((0 : ℚ) - 0) / (1 - 0) = 0 := by
  refine ⟨?_, by norm_num, by norm_num⟩
  norm_num [_layout, posC8, qmin, qmax, min_def, max_def]

/-- C8 amended: each position `(x, y)` maps to
`((x - xmin)/(xmax - xmin), (y - xmax)/(ymax - ymin))`; the x-coordinates
land in `[0, 1]` when the x-values are not all equal, while the y-numerator
subtracts the x-axis maximum (not the y-axis minimum), so the y-coordinates
need not lie in the unit interval. -/
theorem layout_amended :
    ∀ (pos : List (String × ℚ × ℚ)) (k : String) (x y : ℚ),
      qmin (pos.map fun p => p.2.1) < qmax (pos.map fun p => p.2.1) →
      qmin (pos.map fun p => p.2.2) < qmax (pos.map fun p => p.2.2) →
      (k, x, y) ∈ pos →
      ((k, ((x - qmin (pos.map fun p => p.2.1)) /
              (qmax (pos.map fun p => p.2.1) - qmin (pos.map fun p => p.2.1)),
            (y - qmax (pos.map fun p => p.2.1)) /
              (qmax (pos.map fun p => p.2.2) - qmin (pos.map fun p => p.2.2))))
          ∈ _layout pos)
      ∧ 0 ≤ (x - qmin (pos.map fun p => p.2.1)) /
              (qmax (pos.map fun p => p.2.1) - qmin (pos.map fun p => p.2.1))
      ∧ (x - qmin (pos.map fun p => p.2.1)) /
              (qmax (pos.map fun p => p.2.1) - qmin (pos.map fun p => p.2.1)) ≤ 1 := by
  intro pos k x y hx hy hmem
  have hxmem : x ∈ pos.map (fun p => p.2.1) := List.mem_map_of_mem _ hmem
  have h1 : qmin (pos.map fun p => p.2.1) ≤ x := qmin_le_of_mem hxmem
  have h2 : x ≤ qmax (pos.map fun p => p.2.1) := le_qmax_of_mem hxmem
  have hpos : (0 : ℚ) < qmax (pos.map fun p => p.2.1) - qmin (pos.map fun p => p.2.1) :=
    sub_pos.mpr hx
  refine ⟨List.mem_map_of_mem _ hmem, div_nonneg (sub_nonneg.mpr h1) hpos.le, ?_⟩
  rw [div_le_one hpos]
  exact sub_le_sub_right h2 _

/-- Witness for C8's amended statement at concrete positions `a ↦ (0,0)`,
`b ↦ (2,4)`: node `a` lands at `(0, -1/2)` — x in `[0,1]`, y below zero. -/
theorem layout_amended_witness :
    ("a", ((0 : ℚ), -(1/2 : ℚ))) ∈
      _layout [("a", ((0 : ℚ), (0 : ℚ))), ("b", (2, 4))] := by
  have h := layout_amended [("a", (0, 0)), ("b", (2, 4))] "a" 0 0
    (by norm_num [qmin, qmax, min_def, max_def])
    (by norm_num [qmin, qmax, min_def, max_def])
    (by simp)
  have h1 := h.1
  norm_num [qmin, qmax, min_def, max_def] at h1
  convert h1 using 3

/-- C9 counterexample: a source with no connection, no nested schema
connection, and no subscript support: the raising statement evaluates
`repr(source[0])` first, so the propagated error is the subscripting
`TypeError`, not the claimed `DataJointError`. -/
theorem find_connection_counterexample :
    find_connection srcC9 = .error (.typeErr "object is not subscriptable")
    ∧ is_datajoint_error (find_connection srcC9) = false :=
  ⟨rfl, rfl⟩

/-- C9 amended: connection resolution tries `source.connection`, then
`source.schema.connection`; when both are absent it raises the
`DataJointError` "Could not find database connection in repr(source[0])"
only when the source supports subscripting — otherwise evaluating
`source[0]` itself fails and that (non-`DataJointError`) error propagates. -/
theorem find_connection_spec :
    (∀ (s : DiagramSource) (c : Connection), s.connection = some c →
        find_connection s = .ok c)
    ∧ (∀ (s : DiagramSource) (sc : SchemaAttr) (c : Connection),
        s.connection = none → s.schema = some sc → sc.connection = some c →
        find_connection s = .ok c)
    ∧ (∀ (s : DiagramSource) (r : String),
        s.connection = none → s.schema.bind (fun sc => sc.connection) = none →
        s.item0 = some r →
        find_connection s =
          .error (.datajoint ("Could not find database connection in " ++ r)))
    ∧ (∀ s : DiagramSource,
        s.connection = none → s.schema.bind (fun sc => sc.connection) = none →
        s.item0 = none →
        find_connection s = .error (.typeErr "object is not subscriptable")) := by
  refine ⟨?_, ?_, ?_, ?_⟩
  · intro s c h
    simp [find_connection, h]
  · intro s sc c h1 h2 h3
    simp [find_connection, h1, h2, h3]
  · intro s r h1 h2 h3
    simp [find_connection, h1, h2, h3]
  · intro s h1 h2 h3
    simp [find_connection, h1, h2, h3]

/-- Witness for C9's amended statement: a subscriptable source with no
discoverable connection does produce the `DataJointError`. -/
theorem find_connection_spec_witness :
    find_connection srcC9b =
      .error (.datajoint ("Could not find database connection in " ++ "[rel]")) :=
  find_connection_spec.2.2.1 srcC9b "[rel]" rfl rfl rfl

/-- C10: `from_sequence` of an empty sequence raises (the fold has no
elements and no initial value — `functools.reduce` `TypeError`), so a
non-empty sequence is required; on a one-element sequence it returns that
element's diagram. -/
theorem from_sequence_empty_spec :
    from_sequence [] =
      .error (.typeErr "reduce() of empty iterable with no initial value")
    ∧ from_sequence [srcC10] = .ok ⟨gC10, {"`d`.`a`"}⟩ :=
  ⟨rfl, rfl⟩
